import Mathlib

/-!
Verification development for `hiplot/fetchers.py`: the fetcher dispatch
mechanism (`load_xp_with_fetchers`), the recursive multi-source fetcher
(`MultipleFetcher`), the CSV loader's applicability translation
(`load_csv`), and the registry builder (`get_fetchers`).

The Python code signals outcomes with exceptions; here a fetcher call is
embedded as a total function into `FetchResult`, whose three constructors
mirror the three possible outcomes of calling a fetcher in Python:
returning an `Experiment`, raising `ExperimentFetcherDoesntApply`, or
raising any other exception (a hard error).  Dispatch returns
`Except FetchError Experiment`: `.error (.noFetcherFound uri)` embeds the
`NoFetcherFound(uri)` exception and `.error e` a propagated hard error.

The `Experiment` data model (`experiment.py`) is not part of the sources
under verification; the pieces of it that the fetchers consume
(`Experiment.merge`, `Experiment.from_iterable`, `Datapoint`) are modelled
from the spec and marked as such.  Filesystem access, `importlib` and the
demo registry are modelled as explicit environment parameters.
-/

/-- Modelled from the spec: a `Datapoint` is a record with a unique `uid`
string, a mapping from field name to (numeric-or-string) value, and an
optional `from_uid` lineage pointer.  Values are kept as strings; their
interpretation is irrelevant to the dispatch layer. -/
structure Datapoint where
  uid : String
  values : List (String × String)
  from_uid : Option String
deriving DecidableEq

/-- Modelled from the spec: an `Experiment` is an ordered collection of
`Datapoint`s (`experiment.py` is outside the verified sources). -/
structure Experiment where
  datapoints : List Datapoint
deriving DecidableEq

/-- Hard errors a fetcher call can raise (any Python exception other than
`ExperimentFetcherDoesntApply`). `noFetcherFound uri` embeds the
`NoFetcherFound(uri)` exception raised by `load_xp_with_fetchers`. -/
inductive FetchError where
  | noFetcherFound (uri : String)
  | jsonDecode (msg : String)
  | typeError (msg : String)
  | osError (msg : String)
  | formatError (msg : String)
  | recursionLimit
deriving DecidableEq

/-- Outcome of calling one fetcher on a uri: an `Experiment` (normal
return), the `ExperimentFetcherDoesntApply` signal with its optional
diagnostic message, or a propagated hard error. -/
inductive FetchResult where
  | ok (xp : Experiment)
  | doesntApply (msg : Option String)
  | err (e : FetchError)
deriving DecidableEq

/-- Returns `true` exactly when the call raised `ExperimentFetcherDoesntApply`. -/
def FetchResult.isDoesntApply : FetchResult → Bool
  | .doesntApply _ => true
  | _ => false

/-- A fetcher: either an arbitrary loader (a black-box function from uri
to outcome, embedding `load_demo`, `load_csv`, user-supplied loaders, …)
or a `MultipleFetcher` object holding the loader list it was constructed
over (the Python object stores that list plus itself; the trailing self
element is reconstructed structurally at call time, see `multiFetchers`). -/
inductive Fetcher where
  | base (f : String → FetchResult)
  | multi (stored : List Fetcher)

/-- The dispatch loop of `load_xp_with_fetchers`, parameterised by how a
single fetcher is called: try each fetcher in order; return the first
normal result; continue past `ExperimentFetcherDoesntApply`; propagate
any other error; raise `NoFetcherFound(uri)` when the list is exhausted. -/
def loadCore (call : Fetcher → String → FetchResult) :
    List Fetcher → String → Except FetchError Experiment
  | [], uri => .error (.noFetcherFound uri)
  | f :: fs, uri =>
    match call f uri with
    | .ok xp => .ok xp
    | .doesntApply _ => loadCore call fs uri
    | .err e => .error e

/-! ## JSON values and a small `json.loads` model

`MultipleFetcher.__call__` hands the payload after the `multi://` marker
to `json.loads`.  The parser below models the JSON grammar that matters
to the fetcher: values are null, booleans, numbers (kept as their source
text, since their numeric value never influences dispatch), strings,
arrays and objects; parsing consumes the whole input (trailing data is an
error, as in `json.loads`) and any syntax error is a hard decode error. -/

inductive Json where
  | null
  | bool (b : Bool)
  | num (raw : String)
  | str (s : String)
  | arr (elems : List Json)
  | obj (pairs : List (String × Json))

/-- JSON insignificant whitespace. -/
def jsonWs (c : Char) : Bool :=
  c = ' ' ∨ c = '\t' ∨ c = '\n' ∨ c = '\r'

/-- Drop leading JSON whitespace. -/
def skipWs : List Char → List Char
  | [] => []
  | c :: cs => if jsonWs c then skipWs cs else c :: cs

/-- Decimal digit test. -/
def isDig (c : Char) : Bool := '0' ≤ c ∧ c ≤ '9'

/-- Characters that may occur in a JSON number literal. -/
def numChar (c : Char) : Bool :=
  isDig c ∨ c = '-' ∨ c = '+' ∨ c = '.' ∨ c = 'e' ∨ c = 'E'

/-- Longest span of number characters at the head of the input. -/
def numSpan : List Char → List Char × List Char
  | [] => ([], [])
  | c :: cs =>
    if numChar c then
      let p := numSpan cs
      (c :: p.1, p.2)
    else ([], c :: cs)

/-- Hex digit value, if any. -/
def hexVal (c : Char) : Option Nat :=
  if isDig c then some (c.toNat - '0'.toNat)
  else if 'a' ≤ c ∧ c ≤ 'f' then some (c.toNat - 'a'.toNat + 10)
  else if 'A' ≤ c ∧ c ≤ 'F' then some (c.toNat - 'A'.toNat + 10)
  else none

/-- Body of a JSON string literal after the opening quote: the decoded
characters and the remaining input after the closing quote. -/
def strBody : List Char → Except String (List Char × List Char)
  | [] => .error "Unterminated string"
  | '"' :: rest => .ok ([], rest)
  | '\\' :: rest =>
    match rest with
    | [] => .error "Unterminated string"
    | 'u' :: a :: b :: c :: d :: more =>
      match hexVal a, hexVal b, hexVal c, hexVal d with
      | some x, some y, some z, some w =>
        match strBody more with
        | .ok (cs, rem) =>
          .ok (Char.ofNat (((x * 16 + y) * 16 + z) * 16 + w) :: cs, rem)
        | .error m => .error m
      | _, _, _, _ => .error "Invalid unicode escape"
    | e :: more =>
      match
        (if e = '"' then some '"'
         else if e = '\\' then some '\\'
         else if e = '/' then some '/'
         else if e = 'b' then some (Char.ofNat 8)
         else if e = 'f' then some (Char.ofNat 12)
         else if e = 'n' then some '\n'
         else if e = 'r' then some '\r'
         else if e = 't' then some '\t'
         else none) with
      | some dec =>
        match strBody more with
        | .ok (cs, rem) => .ok (dec :: cs, rem)
        | .error m => .error m
      | none => .error "Invalid escape"
  | c :: rest =>
    match strBody rest with
    | .ok (cs, rem) => .ok (c :: cs, rem)
    | .error m => .error m

/-- A JSON number literal: the matched span must be non-empty and hold at
least one digit (a coarse validity check; the numeric value is never
consumed by the fetchers). -/
def numLit (cs : List Char) : Except String (Json × List Char) :=
  let p := numSpan cs
  if p.1 = [] then .error "Expecting value"
  else if p.1.any isDig then .ok (.num ⟨p.1⟩, p.2)
  else .error "Expecting value"

/-- Insertion into an association list with Python `dict` semantics: an
existing key keeps its position and receives the new value, a new key
goes to the end. -/
def dInsert {α : Type} (d : List (String × α)) (k : String) (v : α) : List (String × α) :=
  if d.any (fun p => p.1 = k) then
    d.map (fun p => if p.1 = k then (k, v) else p)
  else d ++ [(k, v)]

/-- Build a Python `dict` (as an ordered association list) from a
key/value sequence by inserting left to right: a repeated key keeps its
first position and its last value. -/
def dictOf {α : Type} (l : List (String × α)) : List (String × α) :=
  l.foldl (fun d p => dInsert d p.1 p.2) []

mutual

/-- Parse one JSON value (fuelled recursion; fuel is spent on nesting). -/
def parseValue : Nat → List Char → Except String (Json × List Char)
  | 0, _ => .error "Nesting too deep"
  | fuel + 1, cs =>
    match skipWs cs with
    | [] => .error "Expecting value"
    | '"' :: rest =>
      match strBody rest with
      | .ok (body, rem) => .ok (.str ⟨body⟩, rem)
      | .error m => .error m
    | '[' :: rest =>
      match skipWs rest with
      | ']' :: rem => .ok (.arr [], rem)
      | other =>
        match parseElems fuel other with
        | .ok (elems, rem) => .ok (.arr elems, rem)
        | .error m => .error m
    | '{' :: rest =>
      match skipWs rest with
      | '}' :: rem => .ok (.obj [], rem)
      | other =>
        match parseMembers fuel other with
        | .ok (pairs, rem) => .ok (.obj (dictOf pairs), rem)
        | .error m => .error m
    | 't' :: 'r' :: 'u' :: 'e' :: rest => .ok (.bool true, rest)
    | 'f' :: 'a' :: 'l' :: 's' :: 'e' :: rest => .ok (.bool false, rest)
    | 'n' :: 'u' :: 'l' :: 'l' :: rest => .ok (.null, rest)
    | other => numLit other

/-- Parse the comma-separated elements of a non-empty JSON array,
including the closing bracket. -/
def parseElems : Nat → List Char → Except String (List Json × List Char)
  | 0, _ => .error "Nesting too deep"
  | fuel + 1, cs =>
    match parseValue fuel cs with
    | .error m => .error m
    | .ok (j, rest) =>
      match skipWs rest with
      | ',' :: more =>
        match parseElems fuel more with
        | .ok (js, rem) => .ok (j :: js, rem)
        | .error m => .error m
      | ']' :: rem => .ok ([j], rem)
      | _ => .error "Expecting comma or close bracket"

/-- Parse the raw member sequence of a non-empty JSON object, including
the closing brace; duplicate keys are resolved afterwards by `dictOf`
with Python `dict` semantics. -/
def parseMembers : Nat → List Char → Except String (List (String × Json) × List Char)
  | 0, _ => .error "Nesting too deep"
  | fuel + 1, cs =>
    match skipWs cs with
    | '"' :: rest =>
      match strBody rest with
      | .error m => .error m
      | .ok (key, rest') =>
        match skipWs rest' with
        | ':' :: rest'' =>
          match parseValue fuel rest'' with
          | .error m => .error m
          | .ok (j, rest3) =>
            match skipWs rest3 with
            | ',' :: more =>
              match parseMembers fuel more with
              | .ok (prs, rem) => .ok ((⟨key⟩, j) :: prs, rem)
              | .error m => .error m
            | '}' :: rem => .ok ([(⟨key⟩, j)], rem)
            | _ => .error "Expecting comma or close brace"
        | _ => .error "Expecting colon"
    | _ => .error "Expecting property name"

end

/-- Model of `json.loads` on a character sequence: parse one value and require the
rest of the input to be whitespace only. The fuel bound `2 * length + 2`
exceeds any nesting depth the input can express. -/
def parseJson (cs : List Char) : Except String Json :=
  match parseValue (2 * cs.length + 2) cs with
  | .error m => .error m
  | .ok (j, rest) =>
    match skipWs rest with
    | [] => .ok j
    | _ => .error "Extra data"

/-! ## The MultipleFetcher and dispatch semantics -/

/-- The reserved uri marker `MULTI_PREFIX = "multi://"` of
`MultipleFetcher`. -/
def multiMarker : List Char := String.toList "multi://"

/-- Embedding of `uri.startswith(p)` combined with the slice `uri[len(p):]`: the tail
after the marker when it matches, `none` otherwise. -/
def remMarker : List Char → List Char → Option (List Char)
  | [], cs => some cs
  | _ :: _, [] => none
  | m :: ms, c :: cs => if c = m then remMarker ms cs else none

/-- The `self.fetchers` list of a `MultipleFetcher`: the list given to
`__init__` followed by the object itself (`fetchers + [self]`). -/
def multiFetchers (stored : List Fetcher) : List Fetcher :=
  stored ++ [Fetcher.multi stored]

/-- Extract the sub-uri bindings of the list form of a composite
definition: `{v: … for v in defs}` keys each entry by the sub-uri itself.
A non-string entry is modelled as an immediate hard type error (in Python
such an entry reaches string-method calls inside the loaders and raises). -/
def subUris : List Json → Except FetchError (List (String × String))
  | [] => .ok []
  | .str s :: rest =>
    match subUris rest with
    | .ok prs => .ok ((s, s) :: prs)
    | .error e => .error e
  | _ :: _ => .error (.typeError "sub-uri is not a string")

/-- Extract the sub-uri bindings of the mapping form of a composite
definition: `{k: … for k, v in defs.items()}` keys each entry by the
user-supplied key.  A non-string value is a hard type error, as in
`subUris`. -/
def subUrisOfObj : List (String × Json) → Except FetchError (List (String × String))
  | [] => .ok []
  | (k, .str s) :: rest =>
    match subUrisOfObj rest with
    | .ok prs => .ok ((k, s) :: prs)
    | .error e => .error e
  | _ :: _ => .error (.typeError "sub-uri is not a string")

/-- Evaluate the comprehension body for each binding in order: load every
sub-uri through the dispatcher; the first failure aborts the whole
comprehension (all-or-nothing). -/
def evalSubsCore (ld : String → Except FetchError Experiment) :
    List (String × String) → Except FetchError (List (String × Experiment))
  | [] => .ok []
  | (k, v) :: rest =>
    match ld v with
    | .error e => .error e
    | .ok xp =>
      match evalSubsCore ld rest with
      | .error e => .error e
      | .ok d => .ok ((k, xp) :: d)

/-- Modelled from the spec: the namespacing applied by `Experiment.merge`
tags each datapoint uid with its originating key, so that identical uids
from different sub-sources never collide. -/
def tagUid (k uid : String) : String := k ++ "/" ++ uid

/-- Modelled from the spec: the datapoints a sub-experiment contributes
to a merge under key `k` — values unchanged, uid and lineage pointer
namespaced by `k` (lineage is preserved only within the sub-source). -/
def tagExperiment (k : String) (xp : Experiment) : List Datapoint :=
  xp.datapoints.map fun dp =>
    { uid := tagUid k dp.uid, values := dp.values,
      from_uid := dp.from_uid.map (tagUid k) }

/-- Modelled from the spec: `Experiment.merge` over an ordered mapping of
key to sub-experiment — the union of all sub-experiments' datapoints,
each namespaced by its key (`experiment.py` is outside the verified
sources). -/
def Experiment.merge (xps : List (String × Experiment)) : Experiment :=
  ⟨(xps.map fun p => tagExperiment p.1 p.2).flatten⟩

/-- The body of `MultipleFetcher.__call__` after the marker matched and
the payload parsed, parameterised by the dispatcher over `self.fetchers`:
a list keys sub-experiments by sub-uri, a mapping by user key; any other
JSON value is a hard type error (`defs.items()` on a non-mapping raises). -/
def multiBody (ld : String → Except FetchError Experiment) (j : Json) : FetchResult :=
  match j with
  | .arr elems =>
    match subUris elems with
    | .error e => .err e
    | .ok prs =>
      match evalSubsCore ld prs with
      | .error e => .err e
      | .ok d => .ok (Experiment.merge (dictOf d))
  | .obj pairs =>
    match subUrisOfObj pairs with
    | .error e => .err e
    | .ok prs =>
      match evalSubsCore ld prs with
      | .error e => .err e
      | .ok d => .ok (Experiment.merge (dictOf d))
  | _ => .err (.typeError "definitions are neither a list nor a mapping")

/-- Body of `MultipleFetcher.__call__` given a way `recur` to re-enter the
dispatcher (or `none` when the recursion budget is exhausted, modelling
Python's `RecursionError`): signal non-applicability unless the uri
starts with `multi://`, then `json.loads` the remainder (a decode
failure is a hard error), then resolve the composite definition through
`self.fetchers`. -/
def multiCall (recur : Option (Fetcher → String → FetchResult))
    (stored : List Fetcher) (uri : String) : FetchResult :=
  match remMarker multiMarker uri.toList with
  | none => .doesntApply none
  | some rest =>
    match parseJson rest with
    | .error m => .err (.jsonDecode m)
    | .ok j =>
      match recur with
      | none => .err .recursionLimit
      | some call => multiBody (fun v => loadCore call (multiFetchers stored) v) j

/-- Call one fetcher on a uri.  A `base` fetcher is its own function; a
`multi` fetcher follows `MultipleFetcher.__call__` (`multiCall`).  The
fuel bounds the recursion depth of nested composite uris. -/
def callFetcher : Nat → Fetcher → String → FetchResult
  | 0, .base f, uri => f uri
  | 0, .multi stored, uri => multiCall none stored uri
  | _ + 1, .base f, uri => f uri
  | fuel + 1, .multi stored, uri => multiCall (some (callFetcher fuel)) stored uri

/-- Embedding of `load_xp_with_fetchers(fetchers, uri)` at a given recursion budget. -/
def load_xp_with_fetchers (fuel : Nat) (fetchers : List Fetcher) (uri : String) :
    Except FetchError Experiment :=
  loadCore (callFetcher fuel) fetchers uri

/-! ## Individual loaders: `load_demo` and `load_csv`

`load_demo` consults the demo registry `README_DEMOS` (an environment:
a partial map from uri to the experiment its factory builds).  `load_csv`
consults the filesystem; opening and reading a CSV file is an environment
returning either the parsed rows, a `FileNotFoundError`, or another IO
failure (only the former is caught by the loader). -/

/-- Embedding of `load_demo`: return the registered demo experiment when the uri is a
key of `README_DEMOS`, otherwise signal non-applicability. -/
def load_demo (demos : String → Option Experiment) (uri : String) : FetchResult :=
  match demos uri with
  | some xp => .ok xp
  | none => .doesntApply none

/-- Outcome of `open(uri)` plus `csv.DictReader`: the record rows, a
`FileNotFoundError`, or another IO failure (e.g. a permission error). -/
inductive CsvOpen where
  | found (rows : List (List (String × String)))
  | fileNotFound
  | ioFailure (msg : String)

/-- Modelled from the spec: `Experiment.from_iterable` builds an
Experiment with one `Datapoint` per record (`experiment.py` is outside
the verified sources); a record's uid is its `uid` field when present,
otherwise its position rendered as a string. -/
def Experiment.from_iterable (rows : List (List (String × String))) : Experiment :=
  ⟨(List.range rows.length).zip rows |>.map fun p =>
    { uid := match p.2.find? (fun kv => kv.1 = "uid") with
        | some kv => kv.2
        | none => toString p.1,
      values := p.2, from_uid := none }⟩

/-- Embedding of `load_csv`: signal non-applicability unless the uri ends in `.csv`;
then open the file, translating `FileNotFoundError` into the
non-applicability signal; any other IO failure propagates as a hard
error. -/
def load_csv (fs : String → CsvOpen) (uri : String) : FetchResult :=
  if ¬ (String.toList ".csv").isSuffixOf uri.toList then
    .doesntApply (some ("Not a CSV file: " ++ uri))
  else
    match fs uri with
    | .found rows => .ok (Experiment.from_iterable rows)
    | .fileNotFound => .doesntApply (some ("No such file: " ++ uri))
    | .ioFailure m => .err (.osError m)

/-! ## Registry builder: `get_fetchers`

`importlib` and the working directory are modelled as an environment:
`import_module` resolves a dotted module path (distinguishing
`ModuleNotFoundError`, which `get_fetchers` catches, from any other
failure, which it does not), and `cwd_module` models
`_get_module_by_name_in_cwd` loading `<name>.py` from the current
working directory.  A module is its attribute table. -/

/-- A resolved Python module: `getattr` as a partial map to fetchers. -/
structure PyModule where
  attr : String → Option Fetcher

/-- Outcome of `importlib.import_module`. -/
inductive ImportOutcome where
  | ok (m : PyModule)
  | moduleNotFound
  | otherFailure (msg : String)

/-- Errors aborting registry construction. -/
inductive RegError where
  | moduleNotFound (name : String)
  | importFailure (msg : String)
  | attrMissing (name : String)
  | cwdLoadFailure (msg : String)

/-- The import environment consulted by `get_fetchers`. -/
structure ImportEnv where
  import_module : String → ImportOutcome
  cwd_module : String → Except String PyModule

/-- Embedding of `_get_module_by_name_in_cwd(name)`: load `<cwd>/<name>.py` as an
ad-hoc module; any failure propagates. -/
def _get_module_by_name_in_cwd (env : ImportEnv) (name : String) :
    Except String PyModule :=
  env.cwd_module name

/-- Python's `str.split(sep)` for a one-character separator: split at
every occurrence, keeping empty segments (so the result is never the
empty list). -/
def pySplit (sep : Char) : List Char → List (List Char)
  | [] => [[]]
  | c :: cs =>
    let r := pySplit sep cs
    if c = sep then [] :: r
    else
      match r with
      | [] => [[c]]
      | p :: ps => (c :: p) :: ps

/-- The segments `fetcher_spec.split(".")` as a list of strings. -/
def specParts (fetcher_spec : String) : List String :=
  (pySplit '.' fetcher_spec.toList).map fun cs => ⟨cs⟩

/-- Resolve one entry of `add_fetchers`: split the qualified name on
dots, import the module path before the last segment (falling back to a
same-named script in the working directory exactly when the import
raises `ModuleNotFoundError` and the name has exactly two segments), and
read the loader off the module with `getattr`. -/
def resolveFetcher (env : ImportEnv) (fetcher_spec : String) : Except RegError Fetcher :=
  let parts := specParts fetcher_spec
  let modPath := String.intercalate "." parts.dropLast
  let getModule : Except RegError PyModule :=
    match env.import_module modPath with
    | .ok m => .ok m
    | .moduleNotFound =>
      if parts.length ≠ 2 then .error (.moduleNotFound modPath)
      else
        match _get_module_by_name_in_cwd env (parts.headD "") with
        | .ok m => .ok m
        | .error msg => .error (.cwdLoadFailure msg)
    | .otherFailure msg => .error (.importFailure msg)
  match getModule with
  | .error e => .error e
  | .ok m =>
    match m.attr (parts.getLastD "") with
    | some f => .ok f
    | none => .error (.attrMissing (parts.getLastD ""))

/-- Resolve every entry of `add_fetchers` in order; the first failure
aborts the whole construction. -/
def resolveFetchersList (env : ImportEnv) : List String → Except RegError (List Fetcher)
  | [] => .ok []
  | s :: rest =>
    match resolveFetcher env s with
    | .error e => .error e
    | .ok f =>
      match resolveFetchersList env rest with
      | .error e => .error e
      | .ok fs => .ok (f :: fs)

/-- Embedding of `get_fetchers(add_fetchers)`: the five built-in loaders (the demo and
CSV loaders concretely, the JSON and log-scraper loaders as black boxes),
then the dynamically resolved user loaders, then a `MultipleFetcher`
constructed over everything so far and appended last. -/
def get_fetchers (demos : String → Option Experiment) (csvFs : String → CsvOpen)
    (jsonF fairseqF w2lF : Fetcher) (env : ImportEnv) (add_fetchers : List String) :
    Except RegError (List Fetcher) :=
  let base : List Fetcher :=
    [.base (load_demo demos), .base (load_csv csvFs), jsonF, fairseqF, w2lF]
  match resolveFetchersList env add_fetchers with
  | .error e => .error e
  | .ok extra => .ok (multiFetchers (base ++ extra))

/-! ## A reference model of list aliasing for `MultipleFetcher.__init__`

`__init__` runs `self.fetchers = fetchers + [self]`: Python list `+`
allocates a fresh list, so later in-place mutation of the argument list
cannot reach `self.fetchers`.  To state this, Python lists are modelled
as cells of a store addressed by allocation index. -/

/-- Allocate a fresh list cell holding `v`; returns the new store and
the fresh address. -/
def pyAlloc {α : Type} (h : List (List α)) (v : List α) : List (List α) × Nat :=
  (h ++ [v], h.length)

/-- Read a list cell. -/
def pyGet {α : Type} (h : List (List α)) (r : Nat) : List α :=
  h.getD r []

/-- In-place mutation of a list cell (e.g. `append`, `clear`, `[:] =`). -/
def pySet {α : Type} (h : List (List α)) (r : Nat) (v : List α) : List (List α) :=
  h.set r v

/-- Model of `MultipleFetcher.__init__` in the store model: read the argument
list at address `r`, allocate a fresh cell holding those fetchers
followed by the new object itself, and return the new store with the
address stored in `self.fetchers`. -/
def multiInitHeap (h : List (List Fetcher)) (r : Nat) : List (List Fetcher) × Nat :=
  pyAlloc h (pyGet h r ++ [Fetcher.multi (pyGet h r)])

/-! ## Sample loaders and environments used to instantiate theorems -/

/-- A loader that declines every uri. -/
def declineAll : Fetcher := .base fun _ => .doesntApply none

/-- A loader that fails hard on every uri. -/
def failAll : Fetcher := .base fun _ => .err (.formatError "boom")

/-- A one-datapoint sample experiment. -/
def sampleXp : Experiment := ⟨[⟨"1", [("v", "3")], none⟩]⟩

/-- A loader that resolves exactly the uri `a`, to `sampleXp`. -/
def fetchA : Fetcher := .base fun u => if u = "a" then .ok sampleXp else .doesntApply none

/-- A loader that resolves `a` and `b` to distinct one-point experiments. -/
def fetchAB : Fetcher := .base fun u =>
  if u = "a" then .ok sampleXp
  else if u = "b" then .ok ⟨[⟨"1", [("v", "7")], none⟩]⟩
  else .doesntApply none

/-- A sample import environment: module `m` exposes loader `f`, script
`s.py` in the working directory exposes loader `g`, nothing else
resolves. -/
def sampleEnv : ImportEnv where
  import_module := fun p =>
    if p = "m" then .ok ⟨fun a => if a = "f" then some declineAll else none⟩
    else .moduleNotFound
  cwd_module := fun n =>
    if n = "s" then .ok ⟨fun a => if a = "g" then some failAll else none⟩
    else .error "no such script"

/-! ## Helper lemmas -/

theorem isDoesntApply_iff (r : FetchResult) :
    r.isDoesntApply = true ↔ ∃ m, r = .doesntApply m := by
  cases r <;> simp [FetchResult.isDoesntApply]

theorem loadCore_append_doesntApply (call : Fetcher → String → FetchResult)
    (L1 L2 : List Fetcher) (u : String)
    (h : ∀ g ∈ L1, (call g u).isDoesntApply = true) :
    loadCore call (L1 ++ L2) u = loadCore call L2 u := by
  induction L1 with
  | nil => rfl
  | cons g gs ih =>
    obtain ⟨m, hm⟩ := (isDoesntApply_iff _).mp (h g (List.mem_cons_self g gs))
    simp only [List.cons_append, loadCore, hm]
    exact ih fun g' hg' => h g' (List.mem_cons_of_mem _ hg')

theorem evalSubsCore_all_ok (ld : String → Except FetchError Experiment)
    (Y : String → Experiment) (prs : List (String × String))
    (h : ∀ q ∈ prs, ld q.2 = .ok (Y q.2)) :
    evalSubsCore ld prs = .ok (prs.map fun q => (q.1, Y q.2)) := by
  induction prs with
  | nil => rfl
  | cons q rest ih =>
    have hq := h q (List.mem_cons_self q rest)
    simp only [evalSubsCore, hq, ih fun q' hq' => h q' (List.mem_cons_of_mem _ hq'),
      List.map_cons]

theorem evalSubsCore_first_error (ld : String → Except FetchError Experiment)
    (Y : String → Experiment) (p1 : List (String × String)) (k v : String)
    (p2 : List (String × String)) (e : FetchError)
    (h1 : ∀ q ∈ p1, ld q.2 = .ok (Y q.2)) (h2 : ld v = .error e) :
    evalSubsCore ld (p1 ++ (k, v) :: p2) = .error e := by
  induction p1 with
  | nil => simp only [List.nil_append, evalSubsCore, h2]
  | cons q rest ih =>
    have hq := h1 q (List.mem_cons_self q rest)
    have ih' := ih fun q' hq' => h1 q' (List.mem_cons_of_mem _ hq')
    simp only [List.cons_append, evalSubsCore, hq, List.append_eq, ih']

theorem subUris_map_str (strs : List String) :
    subUris (strs.map Json.str) = .ok (strs.map fun s => (s, s)) := by
  induction strs with
  | nil => rfl
  | cons s rest ih => simp only [List.map_cons, subUris, ih]

theorem subUrisOfObj_map_str (kvs : List (String × String)) :
    subUrisOfObj (kvs.map fun p => (p.1, Json.str p.2)) = .ok kvs := by
  induction kvs with
  | nil => rfl
  | cons p rest ih =>
    obtain ⟨a, b⟩ := p
    simp only [List.map_cons, subUrisOfObj, ih]

theorem multiBody_ne_doesntApply (ld : String → Except FetchError Experiment)
    (j : Json) : (multiBody ld j).isDoesntApply = false := by
  cases j <;> simp only [multiBody, FetchResult.isDoesntApply]
  case arr elems =>
    cases hsub : subUris elems with
    | error e => simp [hsub, FetchResult.isDoesntApply]
    | ok prs =>
      cases hev : evalSubsCore ld prs <;>
        simp [hsub, hev, FetchResult.isDoesntApply]
  case obj pairs =>
    cases hsub : subUrisOfObj pairs with
    | error e => simp [hsub, FetchResult.isDoesntApply]
    | ok prs =>
      cases hev : evalSubsCore ld prs <;>
        simp [hsub, hev, FetchResult.isDoesntApply]

theorem tagUid_cancel_right (k1 k2 uid : String)
    (h : tagUid k1 uid = tagUid k2 uid) : k1 = k2 := by
  apply String.ext
  have hd : k1.data ++ ('/' :: uid.data) = k2.data ++ ('/' :: uid.data) := by
    have := congrArg String.data h
    simpa [tagUid, String.data_append] using this
  exact List.append_cancel_right hd

/-! ## C1: first-match-wins dispatch -/

/-- C1. First-match-wins dispatch: if every loader before position `i`
signals non-applicability and the loader at position `i` returns an
Experiment, `load_xp_with_fetchers` returns exactly that Experiment;
the conclusion holds for an arbitrary tail `L2`, so no loader after
position `i` influences (or is needed for) the result. -/
theorem C1_first_match_wins (fuel : Nat) (L1 L2 : List Fetcher) (f : Fetcher)
    (u : String) (xp : Experiment)
    (h1 : ∀ g ∈ L1, (callFetcher fuel g u).isDoesntApply = true)
    (h2 : callFetcher fuel f u = .ok xp) :
    load_xp_with_fetchers fuel (L1 ++ f :: L2) u = .ok xp := by
  unfold load_xp_with_fetchers
  rw [loadCore_append_doesntApply _ _ _ _ h1]
  simp only [loadCore, h2]

theorem C1_first_match_wins_witness :
    load_xp_with_fetchers 0 ([declineAll] ++ fetchA :: [failAll]) "a" = .ok sampleXp :=
  C1_first_match_wins 0 [declineAll] [failAll] fetchA "a" sampleXp
    (by intro g hg; rw [List.mem_singleton] at hg; subst hg; rfl) rfl

/-! ## C2: exhaustion failure -/

/-- C2. Exhaustion failure: if every loader in the list signals
non-applicability for `u` (in particular if the list is empty),
`load_xp_with_fetchers` fails with `NoFetcherFound` carrying the
original uri `u`. -/
theorem C2_exhaustion (fuel : Nat) (L : List Fetcher) (u : String)
    (h : ∀ g ∈ L, (callFetcher fuel g u).isDoesntApply = true) :
    load_xp_with_fetchers fuel L u = .error (.noFetcherFound u) := by
  unfold load_xp_with_fetchers
  have := loadCore_append_doesntApply (callFetcher fuel) L [] u h
  simpa [loadCore] using this

theorem C2_exhaustion_witness :
    load_xp_with_fetchers 0 [] "u" = .error (.noFetcherFound "u") ∧
      load_xp_with_fetchers 3 [declineAll, .multi []] "u" =
        .error (.noFetcherFound "u") := by
  constructor
  · exact C2_exhaustion 0 [] "u" (by intro g hg; cases hg)
  · refine C2_exhaustion 3 [declineAll, .multi []] "u" ?_
    intro g hg
    rw [List.mem_cons, List.mem_singleton] at hg
    rcases hg with h | h <;> subst h <;> rfl

/-! ## C3: hard-error propagation -/

/-- C3. Hard-error propagation: a loader failure other than the
non-applicability signal propagates verbatim out of
`load_xp_with_fetchers` (for an arbitrary tail `L2`, so no subsequent
loader is invoked); and through `MultipleFetcher`, a failure while
resolving any sub-uri of a composite uri propagates verbatim as the
result of the whole call — merging is all-or-nothing, no partial result
is produced. -/
theorem C3_hard_error_propagation :
    (∀ (fuel : Nat) (L1 L2 : List Fetcher) (f : Fetcher) (u : String) (e : FetchError),
       (∀ g ∈ L1, (callFetcher fuel g u).isDoesntApply = true) →
       callFetcher fuel f u = .err e →
       load_xp_with_fetchers fuel (L1 ++ f :: L2) u = .error e)
    ∧ (∀ (fuel : Nat) (stored : List Fetcher) (u : String) (rest : List Char)
        (elems : List Json) (p1 : List (String × String)) (k v : String)
        (p2 : List (String × String)) (e : FetchError) (Y : String → Experiment),
       remMarker multiMarker u.toList = some rest →
       parseJson rest = .ok (.arr elems) →
       subUris elems = .ok (p1 ++ (k, v) :: p2) →
       (∀ q ∈ p1, load_xp_with_fetchers fuel (multiFetchers stored) q.2 = .ok (Y q.2)) →
       load_xp_with_fetchers fuel (multiFetchers stored) v = .error e →
       callFetcher (fuel + 1) (.multi stored) u = .err e) := by
  constructor
  · intro fuel L1 L2 f u e h1 h2
    unfold load_xp_with_fetchers
    rw [loadCore_append_doesntApply _ _ _ _ h1]
    simp only [loadCore, h2]
  · intro fuel stored u rest elems p1 k v p2 e Y hrem hparse hsub hok herr
    have hev := evalSubsCore_first_error
      (fun w => load_xp_with_fetchers fuel (multiFetchers stored) w) Y p1 k v p2 e hok herr
    simp only [load_xp_with_fetchers] at hev
    simp only [callFetcher, multiCall, hrem, hparse, multiBody, hsub, hev]

theorem C3_hard_error_propagation_witness :
    load_xp_with_fetchers 0 ([declineAll] ++ failAll :: [fetchA]) "a" =
        .error (.formatError "boom") ∧
      callFetcher 1 (.multi [fetchA]) "multi://[\"a\",\"b\"]" =
        .err (.noFetcherFound "b") := by
  constructor
  · exact C3_hard_error_propagation.1 0 [declineAll] [fetchA] failAll "a" (.formatError "boom")
      (by intro g hg; rw [List.mem_singleton] at hg; subst hg; rfl) rfl
  · exact C3_hard_error_propagation.2 0 [fetchA] "multi://[\"a\",\"b\"]"
      (String.toList "[\"a\",\"b\"]") [.str "a", .str "b"] [("a", "a")] "b" "b" []
      (.noFetcherFound "b") (fun _ => sampleXp) rfl rfl rfl
      (by intro q hq; rw [List.mem_singleton] at hq; subst hq; rfl) rfl

/-! ## C4: the MultipleFetcher applicability gate -/

/-- Holds (as `true`) when `json.loads` failed, or returned a value that is neither
a list nor a mapping. -/
def malformedPayload : Except String Json → Bool
  | .error _ => true
  | .ok (.arr _) => false
  | .ok (.obj _) => false
  | .ok _ => true

/-- C4. Applicability gate: a `MultipleFetcher` call signals
non-applicability exactly when the uri does not start with `multi://`
(`remMarker` returns `none`); and once the marker matches, a malformed
payload — a `json.loads` failure or a value that is neither a list nor a
mapping — always produces a hard error, never the non-applicability
signal. -/
theorem C4_applicability_gate :
    (∀ (fuel : Nat) (stored : List Fetcher) (u : String),
       (callFetcher fuel (.multi stored) u).isDoesntApply = true ↔
         remMarker multiMarker u.toList = none)
    ∧ (∀ (fuel : Nat) (stored : List Fetcher) (u : String) (rest : List Char),
       remMarker multiMarker u.toList = some rest →
       malformedPayload (parseJson rest) = true →
       ∃ e, callFetcher fuel (.multi stored) u = .err e) := by
  have hcall : ∀ (fuel : Nat) (stored : List Fetcher) (u : String),
      ∃ r, callFetcher fuel (.multi stored) u = multiCall r stored u := by
    intro fuel stored u
    cases fuel with
    | zero => exact ⟨none, rfl⟩
    | succ fuel' => exact ⟨some (callFetcher fuel'), rfl⟩
  constructor
  · intro fuel stored u
    obtain ⟨r, hr⟩ := hcall fuel stored u
    rw [hr]
    unfold multiCall
    cases hrem : remMarker multiMarker u.toList with
    | none => simp [FetchResult.isDoesntApply]
    | some rest =>
      simp only
      constructor
      · intro h
        exfalso
        cases hparse : parseJson rest with
        | error m => rw [hparse] at h; simp [FetchResult.isDoesntApply] at h
        | ok j =>
          rw [hparse] at h
          cases r with
          | none => simp [FetchResult.isDoesntApply] at h
          | some call =>
            simp only at h
            rw [multiBody_ne_doesntApply] at h
            exact Bool.false_ne_true h
      · intro h
        exact absurd h (by simp)
  · intro fuel stored u rest hrem hmal
    obtain ⟨r, hr⟩ := hcall fuel stored u
    rw [hr]
    simp only [multiCall, hrem]
    cases hparse : parseJson rest with
    | error m => exact ⟨.jsonDecode m, rfl⟩
    | ok j =>
      rw [hparse] at hmal
      cases r with
      | none => exact ⟨.recursionLimit, rfl⟩
      | some call =>
        cases j <;> simp_all [malformedPayload, multiBody]

theorem C4_applicability_gate_witness :
    ((callFetcher 0 (.multi []) "nope").isDoesntApply = true ↔
        remMarker multiMarker "nope".toList = none) ∧
      (∃ e, callFetcher 0 (.multi []) "multi://42" = .err e) := by
  constructor
  · exact C4_applicability_gate.1 0 [] "nope"
  · exact C4_applicability_gate.2 0 [] "multi://42" (String.toList "42") rfl rfl

/-! ## C5: multi-source list form -/

/-- C5. List form: a composite uri whose payload parses to a list of
sub-uri strings is resolved by dispatching every sub-uri through
`self.fetchers` (`multiFetchers stored`, which ends with the
`MultipleFetcher` itself, enabling nesting), and the result is the merge
of all sub-experiments keyed by the sub-uri string itself.  The second
conjunct shows the merge keying cannot conflate identical datapoint uids
arriving under different keys, and the third that merging loses no
datapoints. -/
theorem C5_multi_list_form :
    (∀ (fuel : Nat) (stored : List Fetcher) (u : String) (rest : List Char)
        (strs : List String) (X : String → Experiment),
       remMarker multiMarker u.toList = some rest →
       parseJson rest = .ok (.arr (strs.map Json.str)) →
       (∀ s ∈ strs, load_xp_with_fetchers fuel (multiFetchers stored) s = .ok (X s)) →
       callFetcher (fuel + 1) (.multi stored) u =
         .ok (Experiment.merge (dictOf (strs.map fun s => (s, X s)))))
    ∧ (∀ k1 k2 uid, tagUid k1 uid = tagUid k2 uid → k1 = k2)
    ∧ (∀ d : List (String × Experiment),
       (Experiment.merge d).datapoints.length =
         (d.map fun p => p.2.datapoints.length).sum) := by
  refine ⟨?_, tagUid_cancel_right, ?_⟩
  · intro fuel stored u rest strs X hrem hparse hload
    have hev := evalSubsCore_all_ok
      (fun w => load_xp_with_fetchers fuel (multiFetchers stored) w) X
      (strs.map fun s => (s, s)) ?_
    · simp only [load_xp_with_fetchers] at hev
      simp only [callFetcher, multiCall, hrem, hparse, multiBody, subUris_map_str, hev,
        List.map_map]
      rfl
    · intro q hq
      obtain ⟨s, hs, rfl⟩ := List.mem_map.mp hq
      exact hload s hs
  · intro d
    simp only [Experiment.merge, List.length_flatten, List.map_map]
    have hf : (List.length ∘ fun p : String × Experiment => tagExperiment p.1 p.2)
        = fun p : String × Experiment => p.2.datapoints.length := by
      funext p
      simp [Function.comp, tagExperiment]
    rw [hf]

theorem C5_multi_list_form_witness :
    callFetcher 1 (.multi [fetchAB]) "multi://[\"a\",\"b\"]" =
      .ok ⟨[⟨"a/1", [("v", "3")], none⟩, ⟨"b/1", [("v", "7")], none⟩]⟩ := by
  have h := C5_multi_list_form.1 0 [fetchAB] "multi://[\"a\",\"b\"]"
    (String.toList "[\"a\",\"b\"]") ["a", "b"]
    (fun s => if s = "a" then sampleXp else ⟨[⟨"1", [("v", "7")], none⟩]⟩)
    rfl rfl ?_
  · exact h
  · intro s hs
    rw [List.mem_cons, List.mem_singleton] at hs
    rcases hs with h' | h' <;> subst h' <;> rfl

/-! ## C6: multi-source mapping form -/

/-- C6. Mapping form: a composite uri whose payload parses to a mapping
from keys to sub-uri strings is resolved like the list form but merged
keyed by the user-supplied key, so the same sub-uri under two distinct
keys contributes two namespaced copies.  The second conjunct shows each
copy keeps the field values of the original experiment unchanged, and
the third that within one key the uid namespacing is injective, so each
copy is internally identical to resolving the sub-uri alone. -/
theorem C6_multi_mapping_form :
    (∀ (fuel : Nat) (stored : List Fetcher) (u : String) (rest : List Char)
        (kvs : List (String × String)) (X : String → Experiment),
       remMarker multiMarker u.toList = some rest →
       parseJson rest = .ok (.obj (kvs.map fun p => (p.1, Json.str p.2))) →
       (∀ p ∈ kvs, load_xp_with_fetchers fuel (multiFetchers stored) p.2 = .ok (X p.2)) →
       callFetcher (fuel + 1) (.multi stored) u =
         .ok (Experiment.merge (dictOf (kvs.map fun p => (p.1, X p.2)))))
    ∧ (∀ k xp, (tagExperiment k xp).map Datapoint.values =
        xp.datapoints.map Datapoint.values)
    ∧ (∀ k : String, Function.Injective (tagUid k)) := by
  refine ⟨?_, ?_, ?_⟩
  · intro fuel stored u rest kvs X hrem hparse hload
    have hev := evalSubsCore_all_ok
      (fun w => load_xp_with_fetchers fuel (multiFetchers stored) w) X kvs hload
    simp only [load_xp_with_fetchers] at hev
    simp only [callFetcher, multiCall, hrem, hparse, multiBody, subUrisOfObj_map_str, hev,
      List.map_map]
  · intro k xp
    simp [tagExperiment, List.map_map, Function.comp]
  · intro k a b h
    have hd := congrArg String.data h
    simp only [tagUid, String.data_append] at hd
    exact String.ext (by simpa using hd)

theorem C6_multi_mapping_form_witness :
    callFetcher 1 (.multi [fetchA]) "multi://\x7b\"x\":\"a\",\"y\":\"a\"\x7d" =
      .ok ⟨[⟨"x/1", [("v", "3")], none⟩, ⟨"y/1", [("v", "3")], none⟩]⟩ := by
  have h := C6_multi_mapping_form.1 0 [fetchA] "multi://\x7b\"x\":\"a\",\"y\":\"a\"\x7d"
    (String.toList "\x7b\"x\":\"a\",\"y\":\"a\"\x7d") [("x", "a"), ("y", "a")]
    (fun _ => sampleXp) rfl rfl ?_
  · exact h
  · intro p hp
    rw [List.mem_cons, List.mem_singleton] at hp
    rcases hp with h' | h' <;> subst h' <;> rfl

/-! ## C7: CSV loader applicability translation -/

/-- C7. CSV loader: a uri not ending in `.csv` is signalled as
non-applicable, and a uri ending in `.csv` whose file does not exist has
its `FileNotFoundError` translated into the non-applicability signal
(driving dispatcher fallthrough) rather than propagating as a hard
error. -/
theorem C7_csv_applicability :
    (∀ (fs : String → CsvOpen) (uri : String),
       (String.toList ".csv").isSuffixOf uri.toList = false →
       load_csv fs uri = .doesntApply (some ("Not a CSV file: " ++ uri)))
    ∧ (∀ (fs : String → CsvOpen) (uri : String),
       (String.toList ".csv").isSuffixOf uri.toList = true →
       fs uri = .fileNotFound →
       load_csv fs uri = .doesntApply (some ("No such file: " ++ uri))) := by
  constructor
  · intro fs uri h
    simp only [load_csv, h]
    simp
  · intro fs uri h hfs
    simp only [load_csv, h, hfs]
    simp

theorem C7_csv_applicability_witness :
    load_csv (fun _ => .fileNotFound) "x.txt" =
        .doesntApply (some "Not a CSV file: x.txt") ∧
      load_csv (fun _ => .fileNotFound) "x.csv" =
        .doesntApply (some "No such file: x.csv") :=
  ⟨C7_csv_applicability.1 (fun _ => .fileNotFound) "x.txt" rfl,
   C7_csv_applicability.2 (fun _ => .fileNotFound) "x.csv" rfl rfl⟩

/-! ## C8: registry builder resolution and atomicity -/

theorem resolveFetchersList_first_error (env : ImportEnv) (pre : List String)
    (s : String) (post : List String) (e : RegError)
    (hok : ∀ t ∈ pre, ∃ f, resolveFetcher env t = .ok f)
    (herr : resolveFetcher env s = .error e) :
    resolveFetchersList env (pre ++ s :: post) = .error e := by
  induction pre with
  | nil => simp only [List.nil_append, resolveFetchersList, herr]
  | cons t ts ih =>
    obtain ⟨f, hf⟩ := hok t (List.mem_cons_self t ts)
    have ih' := ih fun t' ht' => hok t' (List.mem_cons_of_mem _ ht')
    simp only [List.cons_append, resolveFetchersList, hf, List.append_eq, ih']

/-- The module path before the last segment of a qualified name:
`".".join(parts[:-1])`. -/
def specModPath (fetcher_spec : String) : String :=
  String.intercalate "." (specParts fetcher_spec).dropLast

/-- C8. Registry builder: each specification's containing module is
resolved by standard import; the working-directory fallback runs exactly
when that import signals `ModuleNotFoundError` and the specification has
two segments; a deeper unresolvable name or a missing attribute aborts
construction; and when any specification fails, `get_fetchers` returns
that error and no loader list at all. -/
theorem C8_registry_resolution :
    (∀ (env : ImportEnv) (s : String) (m : PyModule) (f : Fetcher),
       env.import_module (specModPath s) = .ok m →
       m.attr ((specParts s).getLastD "") = some f →
       resolveFetcher env s = .ok f)
    ∧ (∀ (env : ImportEnv) (s : String) (m : PyModule),
       env.import_module (specModPath s) = .ok m →
       m.attr ((specParts s).getLastD "") = none →
       resolveFetcher env s = .error (.attrMissing ((specParts s).getLastD "")))
    ∧ (∀ (env : ImportEnv) (s : String) (m : PyModule) (f : Fetcher),
       env.import_module (specModPath s) = .moduleNotFound →
       (specParts s).length = 2 →
       env.cwd_module ((specParts s).headD "") = .ok m →
       m.attr ((specParts s).getLastD "") = some f →
       resolveFetcher env s = .ok f)
    ∧ (∀ (env : ImportEnv) (s : String),
       env.import_module (specModPath s) = .moduleNotFound →
       (specParts s).length ≠ 2 →
       resolveFetcher env s = .error (.moduleNotFound (specModPath s)))
    ∧ (∀ (demos : String → Option Experiment) (csvFs : String → CsvOpen)
        (jF fF wF : Fetcher) (env : ImportEnv) (pre : List String) (s : String)
        (post : List String) (e : RegError),
       (∀ t ∈ pre, ∃ f, resolveFetcher env t = .ok f) →
       resolveFetcher env s = .error e →
       get_fetchers demos csvFs jF fF wF env (pre ++ s :: post) = .error e) := by
  refine ⟨?_, ?_, ?_, ?_, ?_⟩
  · intro env s m f himp hattr
    simp only [resolveFetcher, specModPath] at himp ⊢
    simp only [himp, hattr]
  · intro env s m himp hattr
    simp only [resolveFetcher, specModPath] at himp ⊢
    simp only [himp, hattr]
  · intro env s m f himp hlen hcwd hattr
    simp only [resolveFetcher, specModPath] at himp ⊢
    simp only [himp, hlen, _get_module_by_name_in_cwd, hcwd, hattr]
    simp [← List.getLastD_eq_getLast?, hattr]
  · intro env s himp hlen
    simp only [resolveFetcher, specModPath] at himp ⊢
    simp only [himp]
    simp [hlen]
  · intro demos csvFs jF fF wF env pre s post e hok herr
    have h := resolveFetchersList_first_error env pre s post e hok herr
    simp only [get_fetchers, h]

/-- A concrete module table for the C8 witness: module `m` exposes `f`. -/
theorem C8_registry_resolution_witness :
    resolveFetcher sampleEnv "m.f" = .ok declineAll ∧
      resolveFetcher sampleEnv "a.b.c" = .error (.moduleNotFound "a.b") ∧
      get_fetchers (fun _ => none) (fun _ => .fileNotFound) declineAll declineAll declineAll
        sampleEnv ["m.f", "a.b.c"] = .error (.moduleNotFound "a.b") := by
  refine ⟨?_, ?_, ?_⟩
  · exact C8_registry_resolution.1 sampleEnv "m.f"
      ⟨fun a => if a = "f" then some declineAll else none⟩ declineAll rfl rfl
  · exact C8_registry_resolution.2.2.2.1 sampleEnv "a.b.c" rfl (by decide)
  · refine C8_registry_resolution.2.2.2.2 (fun _ => none) (fun _ => .fileNotFound)
      declineAll declineAll declineAll sampleEnv ["m.f"] "a.b.c" [] (.moduleNotFound "a.b") ?_ ?_
    · intro t ht
      rw [List.mem_singleton] at ht
      subst ht
      exact ⟨declineAll, rfl⟩
    · exact C8_registry_resolution.2.2.2.1 sampleEnv "a.b.c" rfl (by decide)

/-! ## C9: loader-list snapshot -/

/-- C9. Snapshot: `MultipleFetcher.__init__` allocates a fresh list
(`fetchers + [self]`), so mutating the original list afterwards (the
store cell `r`) never changes the stored loader list (the fresh cell);
and for `get_fetchers`, the dispatch list of the appended
`MultipleFetcher` (`multiFetchers stored`) is exactly the returned
registry list. -/
theorem C9_loader_list_snapshot :
    (∀ (h : List (List Fetcher)) (r : Nat) (v : List Fetcher),
       r < h.length →
       pyGet (pySet (multiInitHeap h r).1 r v) (multiInitHeap h r).2 =
         pyGet h r ++ [Fetcher.multi (pyGet h r)])
    ∧ (∀ (demos : String → Option Experiment) (csvFs : String → CsvOpen)
        (jF fF wF : Fetcher) (env : ImportEnv) (add : List String)
        (fetchers : List Fetcher),
       get_fetchers demos csvFs jF fF wF env add = .ok fetchers →
       ∃ stored, fetchers.getLast? = some (.multi stored) ∧
         multiFetchers stored = fetchers) := by
  constructor
  · intro h r v hr
    simp only [multiInitHeap, pyAlloc, pySet, pyGet]
    rw [List.getD_eq_getElem?_getD, List.getElem?_set_ne (Nat.ne_of_lt hr),
      List.getElem?_concat_length]
    rfl
  · intro demos csvFs jF fF wF env add fetchers hget
    simp only [get_fetchers] at hget
    cases hres : resolveFetchersList env add with
    | error e => rw [hres] at hget; cases hget
    | ok extra =>
      rw [hres] at hget
      injection hget with hget
      subst hget
      exact ⟨_, List.getLast?_concat _, rfl⟩

theorem C9_loader_list_snapshot_witness :
    pyGet (pySet (multiInitHeap [[declineAll]] 0).1 0 [])
        (multiInitHeap [[declineAll]] 0).2 =
      pyGet [[declineAll]] 0 ++ [Fetcher.multi (pyGet [[declineAll]] 0)] ∧
    ∃ stored,
      (multiFetchers [.base (load_demo fun _ => none),
        .base (load_csv fun _ => .fileNotFound), declineAll, declineAll,
        declineAll]).getLast? = some (.multi stored) ∧
      multiFetchers stored = multiFetchers [.base (load_demo fun _ => none),
        .base (load_csv fun _ => .fileNotFound), declineAll, declineAll, declineAll] :=
  ⟨C9_loader_list_snapshot.1 [[declineAll]] 0 [] (by decide),
   C9_loader_list_snapshot.2 (fun _ => none) (fun _ => .fileNotFound)
     declineAll declineAll declineAll sampleEnv [] _ rfl⟩

/-! ## C10: duplicate sub-uri collapse -/

/-- C10. Duplicate collapse: the list form keys sub-experiments in a
`dict` by the sub-uri string, so a duplicated sub-uri collapses to a
single key and a composite uri listing `s` twice resolves to exactly the
same outcome as one listing `s` once. -/
theorem C10_duplicate_collapse (fuel : Nat) (stored : List Fetcher) (u u' : String)
    (rest rest' : List Char) (s : String)
    (h1 : remMarker multiMarker u.toList = some rest)
    (h2 : remMarker multiMarker u'.toList = some rest')
    (h3 : parseJson rest = .ok (.arr [.str s, .str s]))
    (h4 : parseJson rest' = .ok (.arr [.str s])) :
    callFetcher fuel (.multi stored) u = callFetcher fuel (.multi stored) u' := by
  cases fuel with
  | zero => simp only [callFetcher, multiCall, h1, h2, h3, h4]
  | succ fuel' =>
    simp only [callFetcher, multiCall, h1, h2, h3, h4, multiBody, subUris]
    cases hld : loadCore (callFetcher fuel') (multiFetchers stored) s with
    | error e => simp [evalSubsCore, hld]
    | ok X => simp [evalSubsCore, hld, dictOf, dInsert]

theorem C10_duplicate_collapse_witness :
    callFetcher 1 (.multi [fetchA]) "multi://[\"a\",\"a\"]" =
      callFetcher 1 (.multi [fetchA]) "multi://[\"a\"]" :=
  C10_duplicate_collapse 1 [fetchA] "multi://[\"a\",\"a\"]" "multi://[\"a\"]"
    (String.toList "[\"a\",\"a\"]") (String.toList "[\"a\"]") "a" rfl rfl rfl rfl
